import Mathlib

/-!
Shallow embedding of the client-side chat/wellbeing core of the
empathic-space-hub repository, together with proofs of the behavioural
claims about it.

The embedded code comes from:
* the AI utilities module (emotion / toxicity pattern matching),
* `src/hooks/useChat.ts` (sendMessage, deleteMessage, message and chat
  list subscriptions, createChat),
* the `WellbeingProvider` component in `src/components/chat/ChatView.tsx`
  (break-reminder check, daily-limit effect).

Conventions of the embedding:
* JS numbers holding millisecond timestamps and minute counters are `Nat`.
* `Date.now()` is modelled by explicit time parameters; an operation that
  reads the clock twice receives two parameters.
* Optional / possibly-`undefined` JS fields are `Option`.
* Firebase writes are modelled either as explicit state transformers on a
  record of the paths the operation touches, or as a log of write events.
-/

/-! ## JS string primitives -/

/-- The JS regex word-character class `\w`, i.e. `[A-Za-z0-9_]` (ASCII only). -/
def isWordChar (c : Char) : Bool :=
  (('a' ≤ c && c ≤ 'z') || ('A' ≤ c && c ≤ 'Z') || ('0' ≤ c && c ≤ '9') || c = '_')

/-- The apostrophe character (code point 39), used inside one of the
"stressed" pattern alternatives. -/
def apos : Char := Char.ofNat 39

/-- Whitespace as recognised by `String.prototype.trim` (the code points
relevant here: ASCII whitespace, NBSP, BOM and the line separators). -/
def isJsWhitespace (c : Char) : Bool :=
  c = ' ' || c = '\t' || c = '\n' || c = '\r' || c = Char.ofNat 11 ||
  c = Char.ofNat 12 || c = Char.ofNat 160 || c = Char.ofNat 65279 ||
  c = Char.ofNat 8232 || c = Char.ofNat 8233

/-- `text.trim()` on the underlying character list. -/
def jsTrimData (l : List Char) : List Char :=
  ((l.dropWhile isJsWhitespace).reverse.dropWhile isJsWhitespace).reverse

/-- JS `text.trim()`. -/
def jsTrim (s : String) : String :=
  ⟨jsTrimData s.data⟩

/-- JS `x || 'User'` applied to a nullable string field (both `null` and the
empty string are falsy). -/
def jsOrUser : Option String → String
  | some s => if s = "" then "User" else s
  | none => "User"

/-- ASCII lower-casing of one character, the effect of `toLowerCase` / the
`i` regex flag on the ASCII-only patterns of the AI module. -/
def lowerChar (c : Char) : Char := c.toLower

/-! ## Regex embedding

The AI module uses three shapes of regular expression:
* `\b(alt1|alt2|...)\b` with the `i` flag (word alternatives),
* `[c1c2...]` (a character class),
* `alt1|alt2|alt3` with the `i` flag (bare substring alternatives).
We embed each shape directly. -/

/-- Does an optional neighbouring character count as a word character?
(No character, i.e. start or end of the text, counts as non-word.) -/
def optWordChar : Option Char → Bool
  | none => false
  | some c => isWordChar c

/-- A `\b` word boundary between two (optional) adjacent characters. -/
def isBoundary (a b : Option Char) : Bool :=
  optWordChar a != optWordChar b

/-- `pat` matches at the current position of the text, with `prev` the
character immediately before the position and `rest` the text from the
position on, and with a `\b` boundary required on both sides. -/
def wbAt (pat : List Char) (prev : Option Char) (rest : List Char) : Bool :=
  pat.isPrefixOf rest &&
  isBoundary prev rest.head? &&
  isBoundary pat.getLast? ((rest.drop pat.length).head?)

/-- Scan of the text for a `\b pat \b` match; `prev` is the character just
before the remaining text. -/
def wbScan (pat : List Char) : Option Char → List Char → Bool
  | prev, [] => wbAt pat prev []
  | prev, c :: cs => wbAt pat prev (c :: cs) || wbScan pat (some c) cs

/-- `/\b pat \b/` tested against a whole text. -/
def wbMatch (pat : List Char) (text : List Char) : Bool :=
  wbScan pat none text

/-- Plain substring occurrence (a regex alternative with no anchors). -/
def subOccurs (pat : List Char) : List Char → Bool
  | [] => pat.isPrefixOf []
  | c :: cs => pat.isPrefixOf (c :: cs) || subOccurs pat cs

/-- One regular expression of the AI module. -/
inductive Pat where
  | wordAlts (alts : List (List Char))
  | charClass (cls : List Char)
  | subAlts (alts : List (List Char))
deriving DecidableEq

/-- `pattern.test(text)`.  The `i` flag of the word/substring patterns is
realised by lower-casing the text (all pattern alternatives are already
lower case); the character classes carry no `i` flag. -/
def testPat (p : Pat) (text : List Char) : Bool :=
  match p with
  | .wordAlts alts => alts.any (fun a => wbMatch a (text.map lowerChar))
  | .charClass cls => text.any (fun c => cls.contains c)
  | .subAlts alts => alts.any (fun a => subOccurs a (text.map lowerChar))

/-! ## The AI module (emotion and toxicity analysis) -/

/-- The six emotion tags. -/
inductive Emotion where
  | neutral
  | happy
  | sad
  | angry
  | stressed
  | anxious
deriving DecidableEq

/-- The emoji character class of the `happy` patterns, embedded as the exact
code points appearing in the source file. -/
def happyClass : List Char :=
  [0x11f, 0x178, 0x2dc, 0x160, 0x11f, 0x178, 0x2dc, 0x201e, 0x11f, 0x178,
   0x2dc, 0x192, 0x11f, 0x178, 0xa5, 0xb0, 0xe2, 0xa4, 0xef, 0xb8, 0x11f,
   0x178, 0x2019, 0x2022, 0x11f, 0x178, 0x2030, 0xe2, 0x153, 0xa8].map Char.ofNat

/-- The emoji character class of the `sad` patterns. -/
def sadClass : List Char :=
  [0x11f, 0x178, 0x2dc, 0xa2, 0x11f, 0x178, 0x2dc, 0xad, 0x11f, 0x178,
   0x2dc, 0x201d, 0x11f, 0x178, 0x2019, 0x201d, 0x11f, 0x178, 0x2dc].map Char.ofNat

/-- The emoji character class of the `angry` patterns. -/
def angryClass : List Char :=
  [0x11f, 0x178, 0x2dc, 0xa0, 0x11f, 0x178, 0x2dc, 0xa1, 0x11f, 0x178,
   0xa4, 0xac].map Char.ofNat

/-- The emoji character class of the `stressed` patterns. -/
def stressedClass : List Char :=
  [0x11f, 0x178, 0x2dc, 0xab, 0x11f, 0x178, 0x2dc, 0xa9, 0x11f, 0x178,
   0x2dc, 0xa4].map Char.ofNat

/-- The emoji character class of the `anxious` patterns. -/
def anxiousClass : List Char :=
  [0x11f, 0x178, 0x2dc, 0xb0, 0x11f, 0x178, 0x2dc, 0xa8, 0x11f, 0x178,
   0x2dc, 0xb1].map Char.ofNat

/-- `emotionPatterns`, the record of per-emotion pattern lists of the AI
module (`neutral` has none). -/
def emotionPatterns : Emotion → List Pat
  | .happy =>
    [.wordAlts (["happy", "joy", "excited", "amazing", "wonderful", "great",
                 "awesome", "love", "fantastic", "brilliant"].map String.data),
     .charClass happyClass]
  | .sad =>
    [.wordAlts (["sad", "depressed", "down", "lonely", "crying", "miss",
                 "hurt", "heartbroken", "disappointed"].map String.data),
     .charClass sadClass]
  | .angry =>
    [.wordAlts (["angry", "mad", "furious", "hate", "annoyed", "frustrated",
                 "pissed", "rage"].map String.data),
     .charClass angryClass]
  | .stressed =>
    [.wordAlts ([("stressed").data, ("overwhelmed").data, ("exhausted").data,
                 ("tired").data, ("burned out").data,
                 ("can").data ++ [apos] ++ ("t cope").data,
                 ("too much").data]),
     .charClass stressedClass]
  | .anxious =>
    [.wordAlts (["anxious", "worried", "nervous", "scared", "afraid",
                 "panic", "anxiety", "fear"].map String.data),
     .charClass anxiousClass]
  | .neutral => []

/-- `toxicPatterns` of the AI module. -/
def toxicPatterns : List Pat :=
  [.wordAlts (["kill", "die", "hate", "stupid", "idiot", "dumb", "loser",
               "ugly", "fat", "retard"].map String.data),
   .wordAlts (["fuck", "shit", "damn", "ass", "bitch"].map String.data),
   .subAlts (["threatening", "harass", "bully"].map String.data)]

/-- Do any of an emotion's patterns match the text? -/
def emotionMatches (e : Emotion) (text : String) : Bool :=
  (emotionPatterns e).any (fun p => testPat p text.data)

/-- `analyzeEmotion`: iterate over the entries of `emotionPatterns` in
insertion order (happy, sad, angry, stressed, anxious; neutral is skipped)
and return the first emotion one of whose patterns matches, else neutral. -/
def analyzeEmotion (text : String) : Emotion :=
  if emotionMatches .happy text then .happy
  else if emotionMatches .sad text then .sad
  else if emotionMatches .angry text then .angry
  else if emotionMatches .stressed text then .stressed
  else if emotionMatches .anxious text then .anxious
  else .neutral

/-- Result record of `detectToxicity`. -/
structure ToxicityResult where
  isToxic : Bool
  reason : Option String
deriving DecidableEq

/-- `detectToxicity`: lower-case the text, then report toxic iff some
toxic pattern matches the lowered text. -/
def detectToxicity (text : String) : ToxicityResult :=
  let lowerText := text.data.map lowerChar
  if toxicPatterns.any (fun p => testPat p lowerText) then
    { isToxic := true, reason := some "Message contains potentially harmful language" }
  else
    { isToxic := false, reason := none }

/-! ## Data model of `useChat.ts` -/

/-- A persisted message record (`Message` minus the store-assigned id). -/
structure MessageRec where
  senderId : String
  senderName : String
  text : String
  timestamp : Nat
  emotion : Option Emotion
  isToxic : Option Bool
  isDeleted : Option Bool
  deletedAt : Option Nat
deriving DecidableEq

/-- A chat record together with its id (the `Chat` interface). -/
structure ChatE where
  id : String
  participants : List String
  participantNames : List (String × String)
  lastMessage : Option String
  lastMessageTime : Option Nat
  isGroup : Bool
  groupName : Option String
  createdAt : Nat
deriving DecidableEq

/-- JS truthiness of an optional boolean field (`undefined` is falsy). -/
def truthy : Option Bool → Bool
  | some b => b
  | none => false

/-- The authenticated user as seen by the hooks (`user.uid`,
`user.displayName`). -/
structure UserRef where
  uid : String
  displayName : Option String
deriving DecidableEq

/-- The slice of the user profile that `sendMessage` reads. -/
structure Profile where
  displayName : Option String
deriving DecidableEq

/-- Overwrite-or-create of one key in an association list, the effect of a
Firebase `set` on a keyed child path. -/
def setAssoc (l : List (String × Bool)) (k : String) (v : Bool) : List (String × Bool) :=
  if l.any (fun p => p.1 = k) then
    l.map (fun p => if p.1 = k then (k, v) else p)
  else
    l ++ [(k, v)]

/-- The remote paths under `chats/{chatId}` that `sendMessage`,
`deleteMessage` and `setTypingStatus` touch: the keyed message list (in
insertion order), the denormalized summary fields, and the typing map. -/
structure ChatState where
  messages : List (String × MessageRec)
  lastMessage : Option String
  lastMessageTime : Option Nat
  typing : List (String × Bool)
deriving DecidableEq

/-- Observable outcome of a `sendMessage` call: silent early return, a
thrown error, or success carrying the detected emotion. -/
inductive SendOutcome where
  | skipped
  | rejected (msg : String)
  | sent (emotion : Emotion)
deriving DecidableEq

/-- Result of a `sendMessage` call: its outcome, the chat state after all
writes, and whether the toxicity / emotion classifiers were invoked. -/
structure SendResult where
  outcome : SendOutcome
  state : ChatState
  toxicityChecked : Bool
  emotionChecked : Bool
deriving DecidableEq

/-- `sendMessage` of `useChat.ts`.  `tMsg` is the value of the `Date.now()`
call producing the message timestamp; `tChat` is the value of the second
`Date.now()` call, made after the message write, that is stored as the
chat's `lastMessageTime`.  `freshId` is the push-generated message id. -/
def sendMessage (chatId : Option String) (user : Option UserRef)
    (userProfile : Option Profile) (text : String) (freshId : String)
    (tMsg tChat : Nat) (st : ChatState) : SendResult :=
  match chatId, user, userProfile with
  | some _cid, some u, some p =>
    if jsTrim text = "" then ⟨.skipped, st, false, false⟩
    else
      let toxicityResult := detectToxicity text
      if toxicityResult.isToxic then
        ⟨.rejected "This message contains harmful content. Please rephrase it kindly.",
         st, true, false⟩
      else
        let emotion := analyzeEmotion text
        let message : MessageRec :=
          { senderId := u.uid
            senderName := jsOrUser p.displayName
            text := jsTrim text
            timestamp := tMsg
            emotion := some emotion
            isToxic := some false
            isDeleted := none
            deletedAt := none }
        ⟨.sent emotion,
         { messages := st.messages ++ [(freshId, message)]
           lastMessage := some ((jsTrim text).take 50)
           lastMessageTime := some tChat
           typing := setAssoc st.typing u.uid false },
         true, true⟩
  | _, _, _ => ⟨.skipped, st, false, false⟩

/-- `deleteMessage` restricted to the targeted record: two `set` writes,
`isDeleted := true` and `deletedAt := Date.now()`. -/
def deleteMessage (m : MessageRec) (now : Nat) : MessageRec :=
  { m with isDeleted := some true, deletedAt := some now }

/-- The `onValue` callback of the message subscription: merge ids into the
records, then drop every message whose `isDeleted` field is truthy. -/
def messagesCallback (data : List (String × MessageRec)) : List (String × MessageRec) :=
  data.filter (fun p => !truthy p.2.isDeleted)

/-- Sort key of the chat list: `lastMessageTime || 0`. -/
def chatSortKey (c : ChatE) : Nat :=
  c.lastMessageTime.getD 0

/-- The comparator-driven sort of `useChats`:
`sort((a, b) => (b.lastMessageTime || 0) - (a.lastMessageTime || 0))`,
i.e. a stable sort that puts `a` before `b` when `key b ≤ key a`. -/
def sortChats (l : List ChatE) : List ChatE :=
  l.mergeSort (fun a b => chatSortKey b ≤ chatSortKey a)

/-- The `onValue` callback of the chat-index subscription: resolve every
chat id through a one-shot read (`resolve`), drop the ids that resolve to
nothing (`filter(Boolean)`), and publish the list sorted descending by
last-message time. -/
def useChatsCallback (resolve : String → Option ChatE) (chatIds : List String) :
    List ChatE :=
  sortChats (chatIds.filterMap resolve)

/-- A write issued by `createChat`: the chat record itself (keyed by the new
chat id) or a `userChats/{uid}/{chatId}` index entry. -/
inductive DbWrite where
  | chatRecord (chatId : String) (chat : ChatE)
  | userChatIndex (uid : String) (chatId : String)
deriving DecidableEq

/-- The dedup predicate of `createChat`: an existing non-group chat whose
participants include both the requested user and the caller. -/
def directChatMatch (uid participantId : String) (c : ChatE) : Bool :=
  !c.isGroup && c.participants.contains participantId && c.participants.contains uid

/-- `createChat` of `useChats`: search the locally cached chat list for an
existing direct chat; if found return its id with no writes, otherwise
create the chat record and one index entry per participant.  Returns the
resulting chat id (or `none` when no user is signed in) and the list of
writes issued, in order. -/
def createChat (user : Option UserRef) (chats : List ChatE)
    (participantId participantName : String) (freshId : String) (now : Nat) :
    Option String × List DbWrite :=
  match user with
  | none => (none, [])
  | some u =>
    match chats.find? (directChatMatch u.uid participantId) with
    | some existingChat => (some existingChat.id, [])
    | none =>
      let chat : ChatE :=
        { id := freshId
          participants := [u.uid, participantId]
          participantNames := [(u.uid, jsOrUser u.displayName), (participantId, participantName)]
          lastMessage := none
          lastMessageTime := none
          isGroup := false
          groupName := none
          createdAt := now }
      (some freshId,
       [.chatRecord freshId chat,
        .userChatIndex u.uid freshId,
        .userChatIndex participantId freshId])

/-! ## The wellbeing tracker (`WellbeingProvider`) -/

/-- One run of the 1-minute break-reminder check: fire iff the session has
lasted at least 30 minutes and at least 30 minutes passed since the last
reminder; firing records `now` as the last-reminder time.  Times are in
milliseconds; the source divides by 60000 before comparing with 30. -/
def breakCheck (sessionStartTime lastBreakReminder now : Nat) : Bool × Nat :=
  if (now - sessionStartTime) / 60000 ≥ 30 ∧ (now - lastBreakReminder) / 60000 ≥ 30 then
    (true, now)
  else
    (false, lastBreakReminder)

/-- `todayUsage >= dailyLimit`. -/
def isLimitReached (todayUsage dailyLimit : Nat) : Bool :=
  dailyLimit ≤ todayUsage

/-- The dependency tuple of the daily-limit effect (the `toast` handle is
stable and omitted). -/
structure LimitDeps where
  limitReached : Bool
  isConfigured : Bool
deriving DecidableEq

/-- Does the daily-limit effect toast on a render?  The effect body runs
when its dependencies differ from the previous render (or on mount, when
there is no previous render), and toasts iff the limit is reached and the
backend is configured. -/
def limitEffectFires (prev : Option LimitDeps) (cur : LimitDeps) : Bool :=
  (match prev with
   | none => true
   | some p => decide (p ≠ cur)) && cur.limitReached && cur.isConfigured

/-- Run the daily-limit effect over a sequence of `todayUsage` values
(one per usage tick), returning whether the notification fired at each
tick. -/
def limitTicks (dailyLimit : Nat) (conf : Bool) :
    Option LimitDeps → List Nat → List Bool
  | _, [] => []
  | prev, u :: us =>
    let cur : LimitDeps := ⟨isLimitReached u dailyLimit, conf⟩
    limitEffectFires prev cur :: limitTicks dailyLimit conf (some cur) us

/-! ## Helper lemmas about the pattern matcher and trimming -/

lemma head_mem_of_wbScan {hd : Char} {tl : List Char} :
    ∀ (prev : Option Char) (l : List Char), wbScan (hd :: tl) prev l = true → hd ∈ l := by
  intro prev l
  induction l generalizing prev with
  | nil => simp [wbScan, wbAt, List.isPrefixOf]
  | cons c cs ih =>
    intro h
    rcases Bool.or_eq_true _ _ |>.mp h with h1 | h2
    · have hpre : (hd :: tl).isPrefixOf (c :: cs) = true := by
        rcases Bool.and_eq_true _ _ |>.mp h1 with ⟨h1a, _⟩
        exact (Bool.and_eq_true _ _ |>.mp h1a).1
      have : (hd :: tl) <+: (c :: cs) := List.isPrefixOf_iff_prefix.mp hpre
      rcases this with ⟨r, hr⟩
      simp only [List.cons_append] at hr
      rw [List.cons.injEq] at hr
      exact hr.1 ▸ List.mem_cons_self _ _
    · exact List.mem_cons_of_mem _ (ih _ h2)

lemma head_mem_of_wbMatch {hd : Char} {tl l : List Char}
    (h : wbMatch (hd :: tl) l = true) : hd ∈ l :=
  head_mem_of_wbScan none l h

lemma head_mem_of_subOccurs {hd : Char} {tl : List Char} :
    ∀ l : List Char, subOccurs (hd :: tl) l = true → hd ∈ l := by
  intro l
  induction l with
  | nil => simp [subOccurs, List.isPrefixOf]
  | cons c cs ih =>
    intro h
    rcases Bool.or_eq_true _ _ |>.mp h with h1 | h2
    · have : (hd :: tl) <+: (c :: cs) := List.isPrefixOf_iff_prefix.mp h1
      rcases this with ⟨r, hr⟩
      simp only [List.cons_append] at hr
      rw [List.cons.injEq] at hr
      exact hr.1 ▸ List.mem_cons_self _ _
    · exact List.mem_cons_of_mem _ (ih h2)

lemma lowerChar_of_ws {c : Char} (h : isJsWhitespace c = true) : lowerChar c = c := by
  simp only [isJsWhitespace, Bool.or_eq_true, decide_eq_true_eq] at h
  rcases h with ((((((((h|h)|h)|h)|h)|h)|h)|h)|h)|h <;> subst h <;> decide

lemma exists_nonWs_of_mem_double_lower {c : Char} {s : String}
    (hm : c ∈ (s.data.map lowerChar).map lowerChar) (hws : isJsWhitespace c = false) :
    ∃ c0 ∈ s.data, isJsWhitespace c0 = false := by
  rcases List.mem_map.mp hm with ⟨c1, hc1, rfl⟩
  rcases List.mem_map.mp hc1 with ⟨c0, hc0, rfl⟩
  refine ⟨c0, hc0, ?_⟩
  by_contra hcon
  have hw : isJsWhitespace c0 = true := by
    cases h : isJsWhitespace c0 with
    | false => exact absurd h hcon
    | true => rfl
  rw [lowerChar_of_ws hw, lowerChar_of_ws hw] at hws
  rw [hw] at hws
  simp at hws

lemma jsTrim_ne_empty_of_nonWs {s : String} {c0 : Char}
    (hm : c0 ∈ s.data) (hws : isJsWhitespace c0 = false) : jsTrim s ≠ "" := by
  intro hcon
  have hdata : jsTrimData s.data = [] := congrArg String.data hcon
  have hall : ∀ x ∈ s.data, isJsWhitespace x = true := by
    intro x hx
    unfold jsTrimData at hdata
    rw [List.reverse_eq_nil_iff] at hdata
    have h2 : ∀ y ∈ (s.data.dropWhile isJsWhitespace).reverse, isJsWhitespace y = true :=
      List.dropWhile_eq_nil_iff.mp hdata
    have h3 : ∀ y ∈ s.data.dropWhile isJsWhitespace, isJsWhitespace y = true := by
      intro y hy
      exact h2 y (List.mem_reverse.mpr hy)
    have hsplit := List.takeWhile_append_dropWhile isJsWhitespace s.data
    rw [← hsplit] at hx
    rcases List.mem_append.mp hx with h4 | h4
    · exact List.mem_takeWhile_imp h4
    · exact h3 x h4
  rw [hall c0 hm] at hws
  simp at hws

lemma jsTrim_ne_empty_of_mem_double_lower {c : Char} {s : String}
    (hm : c ∈ (s.data.map lowerChar).map lowerChar) (hws : isJsWhitespace c = false) :
    jsTrim s ≠ "" := by
  rcases exists_nonWs_of_mem_double_lower hm hws with ⟨c0, h1, h2⟩
  exact jsTrim_ne_empty_of_nonWs h1 h2

lemma jsTrim_ne_empty_of_toxic {text : String}
    (h : (detectToxicity text).isToxic = true) : jsTrim text ≠ "" := by
  simp only [detectToxicity] at h
  split at h
  case isTrue hany =>
    rcases List.any_eq_true.mp hany with ⟨p, hp, hmatch⟩
    fin_cases hp <;> simp only [testPat] at hmatch
    · rcases List.any_eq_true.mp hmatch with ⟨a, ha, hm⟩
      fin_cases ha <;>
        exact jsTrim_ne_empty_of_mem_double_lower (head_mem_of_wbMatch hm) (by decide)
    · rcases List.any_eq_true.mp hmatch with ⟨a, ha, hm⟩
      fin_cases ha <;>
        exact jsTrim_ne_empty_of_mem_double_lower (head_mem_of_wbMatch hm) (by decide)
    · rcases List.any_eq_true.mp hmatch with ⟨a, ha, hm⟩
      fin_cases ha <;>
        exact jsTrim_ne_empty_of_mem_double_lower (head_mem_of_subOccurs _ hm) (by decide)
  case isFalse =>
    simp at h

set_option maxRecDepth 10000

/-! ## Claim theorems about `sendMessage` -/

/-- C1 (counterexample): the claim that the chat's `lastMessageTime` equals
the created message's timestamp fails when the clock advances between the
two `Date.now()` calls of `sendMessage`: sending the non-toxic text
"hello" with the first clock read returning 1000 and the second 1001
creates a message with timestamp 1000 but stores `lastMessageTime` 1001. -/
theorem sendMessage_lastMessageTime_counterexample :
    (sendMessage (some "c1") (some ⟨"uA", some "Ann"⟩) (some ⟨some "Ann"⟩)
        "hello" "m1" 1000 1001 ⟨[], none, none, []⟩).state.messages.map
        (fun q => q.2.timestamp) = [1000] ∧
    (sendMessage (some "c1") (some ⟨"uA", some "Ann"⟩) (some ⟨some "Ann"⟩)
        "hello" "m1" 1000 1001 ⟨[], none, none, []⟩).state.lastMessageTime = some 1001 ∧
    (1001 : Nat) ≠ 1000 := by
  refine ⟨by rfl, by rfl, by decide⟩

/-- C1 (amended): for every non-toxic send of text that passes the local
empty-text guard, exactly one new message record is appended (with the
trimmed text and the timestamp of the first clock read), the parent chat's
`lastMessage` is set to the first 50 characters of the trimmed text, and
`lastMessageTime` is set to the value of the second clock read, made after
the message write; it equals the created message's timestamp exactly when
the two reads return the same instant. -/
theorem sendMessage_nontoxic_commit (cid : String) (u : UserRef) (p : Profile)
    (text freshId : String) (tMsg tChat : Nat) (st : ChatState)
    (hne : jsTrim text ≠ "")
    (htox : (detectToxicity text).isToxic = false) :
    (sendMessage (some cid) (some u) (some p) text freshId tMsg tChat st).state.messages
      = st.messages ++
        [(freshId,
          { senderId := u.uid, senderName := jsOrUser p.displayName,
            text := jsTrim text, timestamp := tMsg,
            emotion := some (analyzeEmotion text), isToxic := some false,
            isDeleted := none, deletedAt := none })] ∧
    (sendMessage (some cid) (some u) (some p) text freshId tMsg tChat st).state.lastMessage
      = some ((jsTrim text).take 50) ∧
    (sendMessage (some cid) (some u) (some p) text freshId tMsg tChat st).state.lastMessageTime
      = some tChat ∧
    (sendMessage (some cid) (some u) (some p) text freshId tMsg tChat st).outcome
      = .sent (analyzeEmotion text) ∧
    (tChat = tMsg →
      (sendMessage (some cid) (some u) (some p) text freshId tMsg tChat st).state.lastMessageTime
        = some tMsg) := by
  have hred : sendMessage (some cid) (some u) (some p) text freshId tMsg tChat st
      = ⟨.sent (analyzeEmotion text),
         { messages := st.messages ++
             [(freshId,
               { senderId := u.uid, senderName := jsOrUser p.displayName,
                 text := jsTrim text, timestamp := tMsg,
                 emotion := some (analyzeEmotion text), isToxic := some false,
                 isDeleted := none, deletedAt := none })],
           lastMessage := some ((jsTrim text).take 50),
           lastMessageTime := some tChat,
           typing := setAssoc st.typing u.uid false }, true, true⟩ := by
    simp [sendMessage, hne, htox]
  rw [hred]
  exact ⟨rfl, rfl, rfl, rfl, fun h => by rw [h]⟩

/-- C1 (witness): the amended theorem instantiated at the send of "hello"
with both clock reads returning 1000. -/
theorem sendMessage_nontoxic_commit_witness :
    (sendMessage (some "c1") (some ⟨"uA", some "Ann"⟩) (some ⟨some "Ann"⟩)
        "hello" "m1" 1000 1000 ⟨[], none, none, []⟩).state.lastMessage = some "hello" ∧
    (sendMessage (some "c1") (some ⟨"uA", some "Ann"⟩) (some ⟨some "Ann"⟩)
        "hello" "m1" 1000 1000 ⟨[], none, none, []⟩).state.lastMessageTime = some 1000 := by
  have h := sendMessage_nontoxic_commit "c1" ⟨"uA", some "Ann"⟩ ⟨some "Ann"⟩
    "hello" "m1" 1000 1000 ⟨[], none, none, []⟩ (by decide) (by rfl)
  refine ⟨?_, h.2.2.2.2 rfl⟩
  rw [h.2.1]
  rfl

/-- C2: a send whose text the toxicity oracle flags is rejected with the
content error and performs no write at all: the chat state (messages,
summary fields, typing map) is returned unchanged. -/
theorem sendMessage_toxic_rejected (cid : String) (u : UserRef) (p : Profile)
    (text freshId : String) (tMsg tChat : Nat) (st : ChatState)
    (htox : (detectToxicity text).isToxic = true) :
    sendMessage (some cid) (some u) (some p) text freshId tMsg tChat st
      = ⟨.rejected "This message contains harmful content. Please rephrase it kindly.",
         st, true, false⟩ := by
  simp only [sendMessage, if_neg (jsTrim_ne_empty_of_toxic htox), htox, if_true, ite_true]

/-- C2 (witness): the toxic-content scenario from the spec, `send(chatId,
"you are an idiot")`, is rejected and leaves the state unchanged. -/
theorem sendMessage_toxic_rejected_witness :
    sendMessage (some "c1") (some ⟨"uA", some "Ann"⟩) (some ⟨some "Ann"⟩)
        "you are an idiot" "m1" 1000 1001 ⟨[], none, none, []⟩
      = ⟨.rejected "This message contains harmful content. Please rephrase it kindly.",
         ⟨[], none, none, []⟩, true, false⟩ :=
  sendMessage_toxic_rejected "c1" ⟨"uA", some "Ann"⟩ ⟨some "Ann"⟩
    "you are an idiot" "m1" 1000 1001 ⟨[], none, none, []⟩ (by rfl)

/-- C10: when any precondition of `sendMessage` fails (no chat selected, no
authenticated user, no loaded profile, or empty/whitespace-only text), the
call returns silently: no error, no classifier invocation, no write, no
emotion tag. -/
theorem sendMessage_guard_skips (chatId : Option String) (user : Option UserRef)
    (userProfile : Option Profile) (text freshId : String) (tMsg tChat : Nat)
    (st : ChatState)
    (h : chatId = none ∨ user = none ∨ userProfile = none ∨ jsTrim text = "") :
    sendMessage chatId user userProfile text freshId tMsg tChat st
      = ⟨.skipped, st, false, false⟩ := by
  rcases h with h | h | h | h
  · subst h
    cases user <;> cases userProfile <;> rfl
  · subst h
    cases chatId <;> cases userProfile <;> rfl
  · subst h
    cases chatId <;> cases user <;> rfl
  · cases chatId <;> cases user <;> cases userProfile <;>
      simp [sendMessage, h]

/-- C10 (witness): a whitespace-only text with all other preconditions met
is skipped without any effect. -/
theorem sendMessage_guard_skips_witness :
    sendMessage (some "c1") (some ⟨"uA", some "Ann"⟩) (some ⟨some "Ann"⟩)
        "   " "m1" 1000 1001 ⟨[], none, none, []⟩
      = ⟨.skipped, ⟨[], none, none, []⟩, false, false⟩ :=
  sendMessage_guard_skips (some "c1") (some ⟨"uA", some "Ann"⟩) (some ⟨some "Ann"⟩)
    "   " "m1" 1000 1001 ⟨[], none, none, []⟩ (by right; right; right; rfl)

/-! ## Claim theorems about the chat list, message view and deletion -/

/-- C3: every chat list published by the chat-index callback is a
permutation of the resolved chats, ordered non-increasingly by
`lastMessageTime || 0` (a chat with no `lastMessageTime` counts as time 0
and therefore sorts last). -/
theorem useChats_publishes_sorted (resolve : String → Option ChatE)
    (chatIds : List String) :
    (useChatsCallback resolve chatIds).Pairwise
      (fun a b => b.lastMessageTime.getD 0 ≤ a.lastMessageTime.getD 0) ∧
    (useChatsCallback resolve chatIds).Perm (chatIds.filterMap resolve) := by
  constructor
  · have h := @List.sorted_mergeSort ChatE
      (fun a b : ChatE => decide (chatSortKey b ≤ chatSortKey a))
      (fun a b c hab hbc => by
        simp only [decide_eq_true_eq] at *
        exact le_trans hbc hab)
      (fun a b => by
        simp only [Bool.or_eq_true, decide_eq_true_eq]
        exact Nat.le_total (chatSortKey b) (chatSortKey a))
      (chatIds.filterMap resolve)
    refine List.Pairwise.imp ?_ h
    intro a b hab
    simpa [chatSortKey] using hab
  · exact List.mergeSort_perm _ _

/-- C6: `deleteMessage` is idempotent on a message record: a second call
leaves exactly the state a single call at the later time would, the
soft-delete flag is true afterwards, and only the deletion timestamp is
refreshed by the second call. -/
theorem deleteMessage_idempotent (m : MessageRec) (t1 t2 : Nat) :
    deleteMessage (deleteMessage m t1) t2 = deleteMessage m t2 ∧
    (deleteMessage (deleteMessage m t1) t2).isDeleted = some true ∧
    (deleteMessage (deleteMessage m t1) t2).deletedAt = some t2 ∧
    (deleteMessage (deleteMessage m t1) t2) = { deleteMessage m t1 with deletedAt := some t2 } := by
  refine ⟨rfl, rfl, rfl, rfl⟩

/-- The happy, non-toxic message of the round-trip scenario. -/
def happyMsg : MessageRec :=
  { senderId := "uA", senderName := "Ann", text := "yay", timestamp := 5,
    emotion := some .happy, isToxic := some false, isDeleted := none,
    deletedAt := none }

/-- C8: the message subscription publishes exactly the messages whose
soft-delete flag is not truthy; in particular, the happy non-toxic message
of the round-trip scenario appears before deletion, and once soft-deleted
the next delivered update no longer contains it. -/
theorem messagesCallback_soft_delete_view (data : List (String × MessageRec)) :
    (∀ q ∈ messagesCallback data, ¬ q.2.isDeleted = some true) ∧
    (∀ q ∈ data, truthy q.2.isDeleted = false → q ∈ messagesCallback data) ∧
    ("m1", happyMsg) ∈ messagesCallback [("m1", happyMsg)] ∧
    messagesCallback [("m1", deleteMessage happyMsg 9)] = [] := by
  refine ⟨?_, ?_, by decide, by rfl⟩
  · intro q hq
    have h := (List.mem_filter.mp hq).2
    cases hdel : q.2.isDeleted with
    | none => simp
    | some b =>
      cases b with
      | false => simp
      | true =>
        rw [hdel] at h
        simp [truthy] at h
  · intro q hq hdel
    exact List.mem_filter.mpr ⟨hq, by rw [hdel]; rfl⟩

/-- C8 (witness): the view theorem instantiated at the singleton list
holding the scenario's message. -/
theorem messagesCallback_soft_delete_view_witness :
    ("m1", happyMsg) ∈ messagesCallback [("m1", happyMsg)] :=
  (messagesCallback_soft_delete_view [("m1", happyMsg)]).2.1
    ("m1", happyMsg) (by decide) (by rfl)

/-- C7: `createChat` reuses a locally cached direct chat when one exists —
returning the id of a cached non-group chat containing both participants
and issuing no write — and otherwise creates the chat record and writes one
index entry for each of the two participants. -/
theorem createChat_dedup (u : UserRef) (chats : List ChatE)
    (participantId participantName freshId : String) (now : Nat) :
    ((∃ c ∈ chats, directChatMatch u.uid participantId c = true) →
      ∃ c ∈ chats, directChatMatch u.uid participantId c = true ∧
        createChat (some u) chats participantId participantName freshId now
          = (some c.id, [])) ∧
    ((∀ c ∈ chats, directChatMatch u.uid participantId c = false) →
      createChat (some u) chats participantId participantName freshId now
        = (some freshId,
           [.chatRecord freshId
              { id := freshId, participants := [u.uid, participantId],
                participantNames := [(u.uid, jsOrUser u.displayName),
                                     (participantId, participantName)],
                lastMessage := none, lastMessageTime := none, isGroup := false,
                groupName := none, createdAt := now },
            .userChatIndex u.uid freshId,
            .userChatIndex participantId freshId])) := by
  constructor
  · intro hex
    have hsome : (chats.find? (directChatMatch u.uid participantId)).isSome = true :=
      List.find?_isSome.mpr hex
    cases hfind : chats.find? (directChatMatch u.uid participantId) with
    | none => rw [hfind] at hsome; simp at hsome
    | some c =>
      refine ⟨c, List.mem_of_find?_eq_some hfind, List.find?_some hfind, ?_⟩
      simp [createChat, hfind]
  · intro hall
    have hnone : chats.find? (directChatMatch u.uid participantId) = none :=
      List.find?_eq_none.mpr (fun c hc => by rw [hall c hc]; simp)
    simp [createChat, hnone]

/-- C7 (witness): with a cached direct chat between `uA` and `uB`, the
request returns the cached id and no write occurs. -/
theorem createChat_dedup_witness :
    ∃ c ∈ [({ id := "existing", participants := ["uA", "uB"],
              participantNames := [("uA", "Ann"), ("uB", "Bob")],
              lastMessage := none, lastMessageTime := none, isGroup := false,
              groupName := none, createdAt := 0 } : ChatE)],
      directChatMatch "uA" "uB" c = true ∧
      createChat (some ⟨"uA", some "Ann"⟩)
          [{ id := "existing", participants := ["uA", "uB"],
             participantNames := [("uA", "Ann"), ("uB", "Bob")],
             lastMessage := none, lastMessageTime := none, isGroup := false,
             groupName := none, createdAt := 0 }] "uB" "Bob" "fresh" 7
        = (some c.id, []) :=
  (createChat_dedup ⟨"uA", some "Ann"⟩
      [{ id := "existing", participants := ["uA", "uB"],
         participantNames := [("uA", "Ann"), ("uB", "Bob")],
         lastMessage := none, lastMessageTime := none, isGroup := false,
         groupName := none, createdAt := 0 }] "uB" "Bob" "fresh" 7).1
    (by decide)

/-! ## Claim theorems about the classifier order and the wellbeing timers -/

/-- C9: `analyzeEmotion` is a total function into the six tags that tests
the pattern groups in the fixed order happy, sad, angry, stressed, anxious
and returns the first group that matches; it returns `neutral` iff no
non-neutral group matches, so a text matching both the sad and the anxious
patterns (and not the happy ones) is tagged `sad`. -/
theorem analyzeEmotion_first_match (t : String) :
    (emotionMatches .happy t = true → analyzeEmotion t = .happy) ∧
    (emotionMatches .happy t = false → emotionMatches .sad t = true →
      analyzeEmotion t = .sad) ∧
    (emotionMatches .happy t = false → emotionMatches .sad t = false →
      emotionMatches .angry t = true → analyzeEmotion t = .angry) ∧
    (emotionMatches .happy t = false → emotionMatches .sad t = false →
      emotionMatches .angry t = false → emotionMatches .stressed t = true →
      analyzeEmotion t = .stressed) ∧
    (emotionMatches .happy t = false → emotionMatches .sad t = false →
      emotionMatches .angry t = false → emotionMatches .stressed t = false →
      emotionMatches .anxious t = true → analyzeEmotion t = .anxious) ∧
    (analyzeEmotion t = .neutral ↔
      (emotionMatches .happy t = false ∧ emotionMatches .sad t = false ∧
       emotionMatches .angry t = false ∧ emotionMatches .stressed t = false ∧
       emotionMatches .anxious t = false)) ∧
    (emotionMatches .sad t = true → emotionMatches .anxious t = true →
      emotionMatches .happy t = false → analyzeEmotion t = .sad) := by
  cases hh : emotionMatches .happy t <;>
    cases hs : emotionMatches .sad t <;>
      cases ha : emotionMatches .angry t <;>
        cases hst : emotionMatches .stressed t <;>
          cases hx : emotionMatches .anxious t <;>
            simp [analyzeEmotion, hh, hs, ha, hst, hx]

/-- C9 (witness): a text matching both the sad and the anxious patterns is
tagged `sad`. -/
theorem analyzeEmotion_first_match_witness :
    analyzeEmotion "i feel sad and worried" = .sad :=
  (analyzeEmotion_first_match "i feel sad and worried").2.2.2.2.2.2
    (by decide) (by decide) (by decide)

/-- C5: the 1-minute break check surfaces a reminder iff at least 30
minutes (1800000 ms) elapsed since session start and since the last
reminder, and surfacing resets the last-reminder timestamp; hence for a
session started at `t0` with the initial last-reminder value 0, the check
30 minutes in fires, the one 45 minutes in does not, and the one 61
minutes in fires again. -/
theorem breakReminder_check (ss lr now t0 : Nat) :
    ((breakCheck ss lr now).1 = true ↔
      ((now - ss) / 60000 ≥ 30 ∧ (now - lr) / 60000 ≥ 30)) ∧
    ((breakCheck ss lr now).1 = true → (breakCheck ss lr now).2 = now) ∧
    ((breakCheck ss lr now).1 = false → (breakCheck ss lr now).2 = lr) ∧
    breakCheck t0 0 (t0 + 1800000) = (true, t0 + 1800000) ∧
    breakCheck t0 (t0 + 1800000) (t0 + 2700000) = (false, t0 + 1800000) ∧
    breakCheck t0 (t0 + 1800000) (t0 + 3660000) = (true, t0 + 3660000) := by
  have h30 : (0 : Nat) < 60000 := by norm_num
  refine ⟨?_, ?_, ?_, ?_, ?_, ?_⟩
  · unfold breakCheck
    split
    case isTrue h => simpa using h
    case isFalse h => simpa using h
  · unfold breakCheck
    split
    · intro _; rfl
    · intro h; simp at h
  · unfold breakCheck
    split
    · intro h; simp at h
    · intro _; rfl
  · unfold breakCheck
    rw [if_pos]
    constructor
    · rw [Nat.add_sub_cancel_left]
    · rw [ge_iff_le, Nat.le_div_iff_mul_le h30]
      omega
  · unfold breakCheck
    rw [if_neg]
    intro hcon
    rcases hcon with ⟨_, h2⟩
    have he : t0 + 2700000 - (t0 + 1800000) = 900000 := by omega
    rw [he] at h2
    norm_num at h2
  · unfold breakCheck
    rw [if_pos]
    constructor
    · rw [Nat.add_sub_cancel_left]
      norm_num
    · have he : t0 + 3660000 - (t0 + 1800000) = 1860000 := by omega
      rw [he]
      norm_num

/-- C5 (witness): the check theorem instantiated at a session started at
time 0, evaluated 30 minutes in. -/
theorem breakReminder_check_witness :
    (breakCheck 0 0 1800000).2 = 1800000 :=
  (breakReminder_check 0 0 1800000 0).2.1 (by decide)

/-- C4: the daily-limit effect re-runs only when its dependency tuple
(limit-reached, configured) changes; from a below-limit render it fires
exactly when the limit is reached, from an at-limit render it never
re-fires while the backend stays configured, and in the spec's scenario
(usage 119, limit 120) the ticks to 120 and 121 fire exactly once, with a
re-fire only after usage resets below the limit and crosses it again. -/
theorem dailyLimit_notification_once (u limit : Nat) :
    limitEffectFires (some ⟨false, true⟩) ⟨isLimitReached u limit, true⟩
      = isLimitReached u limit ∧
    limitEffectFires (some ⟨true, true⟩) ⟨isLimitReached u limit, true⟩ = false ∧
    limitTicks 120 true (some ⟨false, true⟩) [120, 121] = [true, false] ∧
    limitTicks 120 true (some ⟨false, true⟩) [120, 121, 50, 120]
      = [true, false, false, true] := by
  refine ⟨?_, ?_, by decide, by decide⟩
  · cases h : isLimitReached u limit <;> simp [limitEffectFires]
  · cases h : isLimitReached u limit <;> simp [limitEffectFires, h]
